import Mathlib

/-!
A shallow embedding of `python/sourced/engine/engine.py` from the source{d}
engine repository: the delegating proxy layer that wraps externally computed
tabular handles (py4j Java DataFrames) in typed proxy classes.

Java-side objects are modelled symbolically.  A Java DataFrame handle (`JDF`)
records the chain of derived-handle requests that produced it, starting from
an opaque base handle.  The Spark session and the Scala implicits object are
opaque references, modelled as identifiers; "passed by reference" is modelled
as copying the identifier unchanged.
-/

/-- Derived-handle operations requested from the external engine: the methods
invoked on the Scala `EngineDataFrame` bridge object (via `_engine_dataframe`)
and on the Scala `Engine` object itself (`getRepositories`, `getBlobs` with
filter lists). -/
inductive EngineOp where
  | getRepositories
  | getReferences
  | getRemoteReferences
  | getHEAD
  | getMaster
  | getAllReferenceCommits
  | getCommits
  | getTreeEntries
  | getBlobs
  | getBlobsFiltered (repository_ids reference_names commit_hashes : List String)
  | classifyLanguages
  | extractUASTs
  | queryUAST (query query_col output_col : String)
  | extractTokens (input_col output_col : String)
  deriving DecidableEq

/-- A column predicate passed to the generic `filter` operation.  The only
predicate this layer itself builds is `self.name == ref` (in
`ReferencesDataFrame.ref`), so that is the shape we model. -/
inductive ColPred where
  | nameEq (s : String)
  deriving DecidableEq

/-- A generic relational DataFrame method forwarded to the underlying Spark
engine: `filter` with a column predicate, or any other of the wrapped
DataFrame methods (select, sort, join, union, limit, distinct, ...),
identified by name with opaque arguments. -/
inductive GenericCall where
  | filter (p : ColPred)
  | other (methodName : String)
  deriving DecidableEq

/-- A Java DataFrame handle: an opaque tabular result owned by the external
engine, represented by the trace of derived-handle requests that produced it.
`base` is a handle that existed before any operation of this layer ran. -/
inductive JDF where
  | base (id : Nat)
  | engineOp (op : EngineOp) (src : JDF)
  | genericCall (c : GenericCall) (src : JDF)
  deriving DecidableEq

/-- Number of derived tabular handles requested from the external engine in
the history of a handle (each `engineOp` and each forwarded generic call
produces exactly one derived handle). -/
def JDF.handleRequests : JDF → Nat
  | .base _ => 0
  | .engineOp _ src => src.handleRequests + 1
  | .genericCall _ src => src.handleRequests + 1

/-- The runtime class of a proxy object: `SourcedDataFrame` or one of its
specialized subclasses. -/
inductive ProxyKind where
  | sourcedDataFrame
  | repositoriesDataFrame
  | referencesDataFrame
  | commitsDataFrame
  | treeEntriesDataFrame
  | blobsDataFrame
  | blobsWithLanguageDataFrame
  | uastsDataFrame
  deriving DecidableEq

/-- A proxy object (`SourcedDataFrame` or a subclass instance): its runtime
class, the wrapped Java DataFrame handle (`_jdf`), and the `_session` and
`_implicits` references stored by `SourcedDataFrame.__init__`. -/
structure Proxy where
  cls : ProxyKind
  jdf : JDF
  session : Nat
  implicits : Nat
  deriving DecidableEq

/-- `_engine_dataframe`: `self._implicits.EngineDataFrame(self._jdf)` wraps
the handle in the Scala `EngineDataFrame`; the wrapper is identity on the
underlying tabular handle and requests no derived handle. -/
def Proxy.engine_dataframe (self : Proxy) : JDF := self.jdf

/-- A Python value returned by an underlying `DataFrame` method: either a new
DataFrame (with its Java handle) or a non-DataFrame value such as the list
returned by `randomSplit` or the rows of `collect`. -/
inductive PyValue where
  | dataframe (jdf : JDF)
  | other (v : Nat)
  deriving DecidableEq

/-- The value returned by a method generated by
`SourcedDataFrame.__generate_method`: either a re-wrapped proxy object or the
raw underlying result. -/
inductive MethodResult where
  | proxy (p : Proxy)
  | raw (v : PyValue)
  deriving DecidableEq

/-- The `_wrapper` closure built by `SourcedDataFrame.__generate_method`:
call the underlying `DataFrame` method `func`; if `self.__class__` is a strict
subclass of `SourcedDataFrame` and the result is a DataFrame, re-wrap the
result's `_jdf` in `self.__class__` with `self._session` and
`self._implicits`; otherwise return the underlying result unmodified.
(`isinstance(self, SourcedDataFrame)` always holds here because the wrapper
is installed as a method of `SourcedDataFrame`, so every `self` it receives
is a `Proxy` in this model.) -/
def generateMethodWrapper (func : JDF → PyValue) (self : Proxy) : MethodResult :=
  match func self.jdf with
  | PyValue.dataframe j =>
      if self.cls ≠ ProxyKind.sourcedDataFrame then
        MethodResult.proxy ⟨self.cls, j, self.session, self.implicits⟩
      else
        MethodResult.raw (PyValue.dataframe j)
  | PyValue.other v => MethodResult.raw (PyValue.other v)

/-- Underlying `DataFrame.filter`: always returns a DataFrame whose handle is
derived from `self._jdf` by one forwarded filter call. -/
def DataFrame.filterImpl (p : ColPred) (jdf : JDF) : PyValue :=
  PyValue.dataframe (JDF.genericCall (GenericCall.filter p) jdf)

/-- An underlying `DataFrame` method other than `filter` (select, sort, join,
union, limit, distinct, ...): returns a DataFrame derived from `self._jdf` by
one forwarded call. -/
def DataFrame.methodImpl (methodName : String) (jdf : JDF) : PyValue :=
  PyValue.dataframe (JDF.genericCall (GenericCall.other methodName) jdf)

/-- `SourcedDataFrame.filter`, the generated wrapper of `DataFrame.filter`. -/
def SourcedDataFrame.filter (self : Proxy) (p : ColPred) : MethodResult :=
  generateMethodWrapper (DataFrame.filterImpl p) self

/-- A generated wrapper for any other wrapped `DataFrame` method, by name
(`select`, `sort`, `join`, `union`, `limit`, `distinct`, ...). -/
def SourcedDataFrame.genericMethod (self : Proxy) (methodName : String) : MethodResult :=
  generateMethodWrapper (DataFrame.methodImpl methodName) self

/-- Reading `._jdf` off the value returned by a generated method (as
`ReferencesDataFrame.ref` does with `self.filter(...)._jdf`).  The last case
would be an `AttributeError` in Python; it is unreachable for
DataFrame-returning methods such as `filter`. -/
def MethodResult.jdfOf : MethodResult → JDF
  | .proxy p => p.jdf
  | .raw (.dataframe j) => j
  | .raw (.other _) => JDF.base 0

/-- `RepositoriesDataFrame.references`:
`ReferencesDataFrame(self._engine_dataframe.getReferences(), ...)`. -/
def RepositoriesDataFrame.references (self : Proxy) : Proxy :=
  ⟨ProxyKind.referencesDataFrame, JDF.engineOp EngineOp.getReferences self.engine_dataframe,
   self.session, self.implicits⟩

/-- `RepositoriesDataFrame.remote_references`:
`ReferencesDataFrame(self._engine_dataframe.getRemoteReferences(), ...)`. -/
def RepositoriesDataFrame.remote_references (self : Proxy) : Proxy :=
  ⟨ProxyKind.referencesDataFrame, JDF.engineOp EngineOp.getRemoteReferences self.engine_dataframe,
   self.session, self.implicits⟩

/-- `RepositoriesDataFrame.head_ref`:
`ReferencesDataFrame(self._engine_dataframe.getReferences().getHEAD(), ...)`. -/
def RepositoriesDataFrame.head_ref (self : Proxy) : Proxy :=
  ⟨ProxyKind.referencesDataFrame,
   JDF.engineOp EngineOp.getHEAD (JDF.engineOp EngineOp.getReferences self.engine_dataframe),
   self.session, self.implicits⟩

/-- `RepositoriesDataFrame.master_ref`:
`ReferencesDataFrame(self._engine_dataframe.getReferences().getHEAD(), ...)` —
the source calls `getHEAD`, not a master-specific operation. -/
def RepositoriesDataFrame.master_ref (self : Proxy) : Proxy :=
  ⟨ProxyKind.referencesDataFrame,
   JDF.engineOp EngineOp.getHEAD (JDF.engineOp EngineOp.getReferences self.engine_dataframe),
   self.session, self.implicits⟩

/-- `ReferencesDataFrame.remote_references`:
`ReferencesDataFrame(self._engine_dataframe.getRemoteReferences(), ...)`. -/
def ReferencesDataFrame.remote_references (self : Proxy) : Proxy :=
  ⟨ProxyKind.referencesDataFrame, JDF.engineOp EngineOp.getRemoteReferences self.engine_dataframe,
   self.session, self.implicits⟩

/-- `ReferencesDataFrame.head_ref`:
`ReferencesDataFrame(self._engine_dataframe.getHEAD(), ...)`. -/
def ReferencesDataFrame.head_ref (self : Proxy) : Proxy :=
  ⟨ProxyKind.referencesDataFrame, JDF.engineOp EngineOp.getHEAD self.engine_dataframe,
   self.session, self.implicits⟩

/-- `ReferencesDataFrame.master_ref`:
`ReferencesDataFrame(self._engine_dataframe.getMaster(), ...)` (the trailing
`return self.ref('refs/heads/master')` in the source is dead code after the
first return). -/
def ReferencesDataFrame.master_ref (self : Proxy) : Proxy :=
  ⟨ProxyKind.referencesDataFrame, JDF.engineOp EngineOp.getMaster self.engine_dataframe,
   self.session, self.implicits⟩

/-- `ReferencesDataFrame.ref(ref)`:
`ReferencesDataFrame(self.filter(self.name == ref)._jdf, ...)` — delegates to
the generated generic `filter` wrapper and re-wraps its `_jdf`. -/
def ReferencesDataFrame.ref (self : Proxy) (r : String) : Proxy :=
  ⟨ProxyKind.referencesDataFrame,
   (SourcedDataFrame.filter self (ColPred.nameEq r)).jdfOf,
   self.session, self.implicits⟩

/-- `ReferencesDataFrame.all_reference_commits`:
`CommitsDataFrame(self._engine_dataframe.getAllReferenceCommits(), ...)`. -/
def ReferencesDataFrame.all_reference_commits (self : Proxy) : Proxy :=
  ⟨ProxyKind.commitsDataFrame, JDF.engineOp EngineOp.getAllReferenceCommits self.engine_dataframe,
   self.session, self.implicits⟩

/-- `ReferencesDataFrame.commits`:
`CommitsDataFrame(self._engine_dataframe.getCommits(), ...)`. -/
def ReferencesDataFrame.commits (self : Proxy) : Proxy :=
  ⟨ProxyKind.commitsDataFrame, JDF.engineOp EngineOp.getCommits self.engine_dataframe,
   self.session, self.implicits⟩

/-- `ReferencesDataFrame.blobs`:
`BlobsDataFrame(self._engine_dataframe.getBlobs(), ...)`. -/
def ReferencesDataFrame.blobs (self : Proxy) : Proxy :=
  ⟨ProxyKind.blobsDataFrame, JDF.engineOp EngineOp.getBlobs self.engine_dataframe,
   self.session, self.implicits⟩

/-- `CommitsDataFrame.all_reference_commits`:
`CommitsDataFrame(self._engine_dataframe.getAllReferenceCommits(), ...)`. -/
def CommitsDataFrame.all_reference_commits (self : Proxy) : Proxy :=
  ⟨ProxyKind.commitsDataFrame, JDF.engineOp EngineOp.getAllReferenceCommits self.engine_dataframe,
   self.session, self.implicits⟩

/-- `CommitsDataFrame.tree_entries`:
`TreeEntriesDataFrame(self._engine_dataframe.getTreeEntries(), ...)`. -/
def CommitsDataFrame.tree_entries (self : Proxy) : Proxy :=
  ⟨ProxyKind.treeEntriesDataFrame, JDF.engineOp EngineOp.getTreeEntries self.engine_dataframe,
   self.session, self.implicits⟩

/-- `CommitsDataFrame.blobs`:
`BlobsDataFrame(self._engine_dataframe.getBlobs(), ...)`. -/
def CommitsDataFrame.blobs (self : Proxy) : Proxy :=
  ⟨ProxyKind.blobsDataFrame, JDF.engineOp EngineOp.getBlobs self.engine_dataframe,
   self.session, self.implicits⟩

/-- `TreeEntriesDataFrame.blobs`:
`BlobsDataFrame(self._engine_dataframe.getBlobs(), ...)`. -/
def TreeEntriesDataFrame.blobs (self : Proxy) : Proxy :=
  ⟨ProxyKind.blobsDataFrame, JDF.engineOp EngineOp.getBlobs self.engine_dataframe,
   self.session, self.implicits⟩

/-- `BlobsDataFrame.classify_languages()`:
`BlobsWithLanguageDataFrame(self._engine_dataframe.classifyLanguages(), ...)`. -/
def BlobsDataFrame.classify_languages (self : Proxy) : Proxy :=
  ⟨ProxyKind.blobsWithLanguageDataFrame,
   JDF.engineOp EngineOp.classifyLanguages self.engine_dataframe,
   self.session, self.implicits⟩

/-- `BlobsDataFrame.extract_uasts()`:
`UASTsDataFrame(self._engine_dataframe.extractUASTs(), ...)`. -/
def BlobsDataFrame.extract_uasts (self : Proxy) : Proxy :=
  ⟨ProxyKind.uastsDataFrame, JDF.engineOp EngineOp.extractUASTs self.engine_dataframe,
   self.session, self.implicits⟩

/-- `BlobsWithLanguageDataFrame.extract_uasts()`:
`UASTsDataFrame(self._engine_dataframe.extractUASTs(), ...)`. -/
def BlobsWithLanguageDataFrame.extract_uasts (self : Proxy) : Proxy :=
  ⟨ProxyKind.uastsDataFrame, JDF.engineOp EngineOp.extractUASTs self.engine_dataframe,
   self.session, self.implicits⟩

/-- `UASTsDataFrame.query_uast(query, query_col='uast', output_col='result')`:
`UASTsDataFrame(self._engine_dataframe.queryUAST(query, query_col, output_col), ...)`
(defaults are modelled as explicit arguments). -/
def UASTsDataFrame.query_uast (self : Proxy) (query query_col output_col : String) : Proxy :=
  ⟨ProxyKind.uastsDataFrame,
   JDF.engineOp (EngineOp.queryUAST query query_col output_col) self.engine_dataframe,
   self.session, self.implicits⟩

/-- `UASTsDataFrame.extract_tokens(input_col='result', output_col='tokens')`:
`UASTsDataFrame(self._engine_dataframe.extractTokens(input_col, output_col), ...)`
(defaults are modelled as explicit arguments). -/
def UASTsDataFrame.extract_tokens (self : Proxy) (input_col output_col : String) : Proxy :=
  ⟨ProxyKind.uastsDataFrame,
   JDF.engineOp (EngineOp.extractTokens input_col output_col) self.engine_dataframe,
   self.session, self.implicits⟩

/-- The Python `Engine` wrapper object after successful construction: the
Spark session, the handle to the Scala `tech.sourced.engine.Engine` bridge
object, and the Scala implicits (`package$.MODULE$`) handle. -/
structure EngineObj where
  session : Nat
  jengine : Nat
  implicits : Nat
  deriving DecidableEq

/-- Outcome of the py4j bridge call
`self.__jvm.tech.sourced.engine.Engine.apply(...)` during `Engine.__init__`:
success, a `TypeError` (raised with message `e.args[0]` when the JVM class is
a missing `JavaPackage`), or any other exception. -/
inductive BridgeInit where
  | ok (jengine : Nat)
  | typeError (msg : String)
  | otherError (msg : String)
  deriving DecidableEq

/-- A Python exception as surfaced by `Engine.__init__`: a new `Exception`
raised by this layer, or a propagated `TypeError` / other exception. -/
inductive PyError where
  | exception (msg : String)
  | typeError (msg : String)
  | otherError (msg : String)
  deriving DecidableEq

/-- The first list of characters is a prefix of the second. -/
def isPrefixChars : List Char → List Char → Bool
  | [], _ => true
  | _ :: _, [] => false
  | a :: as, b :: bs => a == b && isPrefixChars as bs

/-- The first list of characters occurs as a contiguous sublist of the
second. -/
def isSubChars (sub : List Char) : List Char → Bool
  | [] => isPrefixChars sub []
  | c :: cs => isPrefixChars sub (c :: cs) || isSubChars sub cs

/-- The Python substring test `sub in s`. -/
def strContains (s sub : String) : Bool := isSubChars sub.data s.data

/-- The exact message of the exception `Engine.__init__` raises when the
bridge call fails because the engine package is not on the classpath. -/
def pkgMissingMsg : String :=
  "package \"tech.sourced:engine:<version>\" cannot be found. Please, provide a jar with the package or install the package using --packages"

/-- The `try/except TypeError` around the single bridge call in
`Engine.__init__`: on success store the Scala engine handle; on a
`TypeError` whose message contains `JavaPackage`, raise the
package-missing `Exception`; on any other `TypeError` re-raise it unchanged;
any non-`TypeError` exception is not caught and propagates unchanged. -/
def Engine.initFromBridge (session implicitsHandle : Nat) (r : BridgeInit) :
    Except PyError EngineObj :=
  match r with
  | BridgeInit.ok j => Except.ok ⟨session, j, implicitsHandle⟩
  | BridgeInit.typeError m =>
      if strContains m "JavaPackage" then Except.error (PyError.exception pkgMissingMsg)
      else Except.error (PyError.typeError m)
  | BridgeInit.otherError m => Except.error (PyError.otherError m)

/-- `Engine.repositories`:
`RepositoriesDataFrame(self.__engine.getRepositories(), self.session, self.__implicits)`. -/
def Engine.repositories (self : EngineObj) : Proxy :=
  ⟨ProxyKind.repositoriesDataFrame,
   JDF.engineOp EngineOp.getRepositories (JDF.base self.jengine),
   self.session, self.implicits⟩

/-- A Python argument that is either a list of strings (the expected shape
for the filter arguments of `Engine.blobs`) or a scalar string (the typical
wrong shape); `isinstance(x, list)` holds exactly for the first. -/
inductive PyArg where
  | str (s : String)
  | list (xs : List String)
  deriving DecidableEq

/-- `isinstance(x, list)`. -/
def PyArg.isList : PyArg → Bool
  | .str _ => false
  | .list _ => true

/-- `Engine.blobs(repository_ids=[], reference_names=[], commit_hashes=[])`:
checks `isinstance(x, list)` for the three arguments in order, raising
`Exception("<name> must be a list")` for the first offender, and only then
calls the bridge `getBlobs` and wraps the result in a `BlobsDataFrame`.
The second component records every derived-handle request made to the
external engine during the call (the recording double of the spec). -/
def Engine.blobs (self : EngineObj) (repository_ids reference_names commit_hashes : PyArg) :
    Except String Proxy × List EngineOp :=
  match repository_ids with
  | PyArg.str _ => (Except.error "repository_ids must be a list", [])
  | PyArg.list rs =>
    match reference_names with
    | PyArg.str _ => (Except.error "reference_names must be a list", [])
    | PyArg.list ns =>
      match commit_hashes with
      | PyArg.str _ => (Except.error "commit_hashes must be a list", [])
      | PyArg.list hs =>
          (Except.ok ⟨ProxyKind.blobsDataFrame,
                      JDF.engineOp (EngineOp.getBlobsFiltered rs ns hs) (JDF.base self.jengine),
                      self.session, self.implicits⟩,
           [EngineOp.getBlobsFiltered rs ns hs])

/-- A call made on the Scala `Engine` bridge object by the data-source
switching methods. -/
inductive BridgeCall where
  | fromMetadata (db_path db_name : String)
  | fromRepositories
  deriving DecidableEq

/-- A value returned by a bridge call (an opaque py4j `JavaObject`). -/
inductive BridgeVal where
  | fromRepositoriesResult (jengine : Nat)
  deriving DecidableEq

/-- A Python return value of the data-source switching methods: the `Engine`
wrapper instance itself, or a raw bridge object. -/
inductive PyReturn where
  | engineInstance (e : EngineObj)
  | bridgeObject (v : BridgeVal)
  deriving DecidableEq

/-- `Engine.from_metadata(db_path, db_name='engine_metadata.db')`:
`self.__engine.fromMetadata(db_path, db_name); return self`.  The second
component is the list of bridge calls made. -/
def Engine.from_metadata (self : EngineObj) (db_path db_name : String) :
    PyReturn × List BridgeCall :=
  (PyReturn.engineInstance self, [BridgeCall.fromMetadata db_path db_name])

/-- `Engine.from_repositories()`: `return self.__engine.fromRepositories()` —
the value produced by the bridge call, not the wrapper instance. -/
def Engine.from_repositories (self : EngineObj) : PyReturn × List BridgeCall :=
  (PyReturn.bridgeObject (BridgeVal.fromRepositoriesResult self.jengine),
   [BridgeCall.fromRepositories])

/-- A row of a references table in the semantic model of the external engine:
the reference name plus the remaining row content, opaque to this layer. -/
structure Row where
  name : String
  payload : List String
  deriving DecidableEq

/-- The name of the HEAD reference, as used by the engine's get-HEAD
filter and by `ReferencesDataFrame.ref` callers. -/
def headRefName : String := "HEAD"

/-- The name of the master reference (the source's dead-code fallback in
`ReferencesDataFrame.master_ref` spells it `refs/heads/master`). -/
def masterRefName : String := "refs/heads/master"

/-- A distinct tag for each engine operation, used to mark rows transformed
by operations whose row-level semantics this layer never observes. -/
def EngineOp.opTag : EngineOp → String
  | .getRepositories => "getRepositories"
  | .getReferences => "getReferences"
  | .getRemoteReferences => "getRemoteReferences"
  | .getHEAD => "getHEAD"
  | .getMaster => "getMaster"
  | .getAllReferenceCommits => "getAllReferenceCommits"
  | .getCommits => "getCommits"
  | .getTreeEntries => "getTreeEntries"
  | .getBlobs => "getBlobs"
  | .getBlobsFiltered _ _ _ => "getBlobsFiltered"
  | .classifyLanguages => "classifyLanguages"
  | .extractUASTs => "extractUASTs"
  | .queryUAST _ _ _ => "queryUAST"
  | .extractTokens _ _ => "extractTokens"

/-- Modelled from the spec: the external Scala engine
(`tech.sourced.engine`, part of this repository but not under the given
source tree) is the authority for what each derived-handle request computes.
Following the spec and the source docstrings, `getHEAD` "filters the current
DataFrame to only contain those rows whose reference is HEAD", and
`getMaster` filters to the master reference; every other operation is a
row-wise transformation this layer never inspects, modelled as tagging each
row with the operation's tag. -/
def engineOpSem : EngineOp → List Row → List Row
  | EngineOp.getHEAD => fun t => t.filter (fun row => row.name == headRefName)
  | EngineOp.getMaster => fun t => t.filter (fun row => row.name == masterRefName)
  | op => fun t => t.map (fun row => ⟨row.name, op.opTag :: row.payload⟩)

/-- Modelled from the spec: a forwarded generic relational call is computed
by the external Spark engine; a `filter` on the reference-name column keeps
the rows with the given name, and any other generic method is a
transformation this layer never inspects, modelled as tagging each row with
the method name. -/
def genericCallSem : GenericCall → List Row → List Row
  | GenericCall.filter (ColPred.nameEq s) => fun t => t.filter (fun row => row.name == s)
  | GenericCall.other n => fun t => t.map (fun row => ⟨row.name, n :: row.payload⟩)

/-- Modelled from the spec: the table the external engine materializes for a
handle, given an environment assigning a table to every base handle. -/
def evalJDF (env : Nat → List Row) : JDF → List Row
  | JDF.base i => env i
  | JDF.engineOp op src => engineOpSem op (evalJDF env src)
  | JDF.genericCall c src => genericCallSem c (evalJDF env src)

/-- The derived proxy carries exactly the same session reference and the
same implicits handle as the proxy it was derived from. -/
def preservesContext (derived src : Proxy) : Prop :=
  derived.session = src.session ∧ derived.implicits = src.implicits

/-- When a generated generic method re-wraps its result in a proxy, that
proxy carries exactly the source proxy's session and implicits; a raw result
carries no context at all. -/
def MethodResult.contextPreserved (res : MethodResult) (src : Proxy) : Prop :=
  match res with
  | MethodResult.proxy q => q.session = src.session ∧ q.implicits = src.implicits
  | MethodResult.raw _ => True

/-- The generated `filter` wrapper always hands back a handle derived from
`self._jdf` by the forwarded filter call, whatever the caller's class (the
wrapper only decides how the handle is re-wrapped, and
`ReferencesDataFrame.ref` immediately reads `._jdf` back off the result). -/
theorem filter_jdfOf (p : Proxy) (pr : ColPred) :
    (SourcedDataFrame.filter p pr).jdfOf = JDF.genericCall (GenericCall.filter pr) p.jdf := by
  unfold SourcedDataFrame.filter generateMethodWrapper DataFrame.filterImpl
  by_cases h : p.cls = ProxyKind.sourcedDataFrame <;> simp [h, MethodResult.jdfOf]

/-- The handle inside the proxy returned by `ReferencesDataFrame.ref`. -/
theorem ref_jdf (p : Proxy) (r : String) :
    (ReferencesDataFrame.ref p r).jdf =
      JDF.genericCall (GenericCall.filter (ColPred.nameEq r)) p.jdf := by
  simp [ReferencesDataFrame.ref, filter_jdfOf]

/-- C1: for every generic relational operation (any wrapped `DataFrame`
method `func`) and every proxy: a caller whose class is a strict subclass of
`SourcedDataFrame` gets its tabular result re-wrapped in exactly its own
class with its own session and implicits; a caller of the generic base class
gets the underlying result back unmodified; a non-tabular result is returned
unmodified as well. -/
theorem c1_generic_subtype_dispatch (func : JDF → PyValue) (p : Proxy) (j : JDF) (v : Nat) :
    (p.cls ≠ ProxyKind.sourcedDataFrame → func p.jdf = PyValue.dataframe j →
      generateMethodWrapper func p =
        MethodResult.proxy ⟨p.cls, j, p.session, p.implicits⟩)
  ∧ (p.cls = ProxyKind.sourcedDataFrame →
      generateMethodWrapper func p = MethodResult.raw (func p.jdf))
  ∧ (func p.jdf = PyValue.other v →
      generateMethodWrapper func p = MethodResult.raw (PyValue.other v)) := by
  unfold generateMethodWrapper
  refine ⟨fun hne hdf => ?_, fun heq => ?_, fun hov => ?_⟩
  · rw [hdf]; simp [hne]
  · cases hf : func p.jdf with
    | dataframe j2 => simp [heq]
    | other v2 => rfl
  · rw [hov]

/-- Witness for C1: a `select` call on a commits proxy is re-wrapped as a
commits proxy with the same context; the same call on a base
`SourcedDataFrame` comes back as the raw underlying DataFrame; a
non-DataFrame result comes back raw. -/
theorem c1_witness :
    generateMethodWrapper (DataFrame.methodImpl "select")
        ⟨ProxyKind.commitsDataFrame, JDF.base 3, 5, 7⟩
      = MethodResult.proxy ⟨ProxyKind.commitsDataFrame,
          JDF.genericCall (GenericCall.other "select") (JDF.base 3), 5, 7⟩
  ∧ generateMethodWrapper (DataFrame.methodImpl "select")
        ⟨ProxyKind.sourcedDataFrame, JDF.base 3, 5, 7⟩
      = MethodResult.raw (DataFrame.methodImpl "select" (JDF.base 3))
  ∧ generateMethodWrapper (fun _ => PyValue.other 9)
        ⟨ProxyKind.commitsDataFrame, JDF.base 3, 5, 7⟩
      = MethodResult.raw (PyValue.other 9) :=
  ⟨(c1_generic_subtype_dispatch (DataFrame.methodImpl "select")
      ⟨ProxyKind.commitsDataFrame, JDF.base 3, 5, 7⟩
      (JDF.genericCall (GenericCall.other "select") (JDF.base 3)) 0).1 (by decide) rfl,
   (c1_generic_subtype_dispatch (DataFrame.methodImpl "select")
      ⟨ProxyKind.sourcedDataFrame, JDF.base 3, 5, 7⟩ (JDF.base 0) 0).2.1 rfl,
   (c1_generic_subtype_dispatch (fun _ => PyValue.other 9)
      ⟨ProxyKind.commitsDataFrame, JDF.base 3, 5, 7⟩ (JDF.base 0) 9).2.2 rfl⟩

/-- C2: every navigation operation returns a proxy whose runtime class is
exactly the class of its declared destination concept, regardless of the
source instance. -/
theorem c2_navigation_destination_subtype (p : Proxy) (r q qc oc ic tc : String) :
    (RepositoriesDataFrame.references p).cls = ProxyKind.referencesDataFrame
  ∧ (RepositoriesDataFrame.remote_references p).cls = ProxyKind.referencesDataFrame
  ∧ (RepositoriesDataFrame.head_ref p).cls = ProxyKind.referencesDataFrame
  ∧ (RepositoriesDataFrame.master_ref p).cls = ProxyKind.referencesDataFrame
  ∧ (ReferencesDataFrame.remote_references p).cls = ProxyKind.referencesDataFrame
  ∧ (ReferencesDataFrame.head_ref p).cls = ProxyKind.referencesDataFrame
  ∧ (ReferencesDataFrame.master_ref p).cls = ProxyKind.referencesDataFrame
  ∧ (ReferencesDataFrame.ref p r).cls = ProxyKind.referencesDataFrame
  ∧ (ReferencesDataFrame.all_reference_commits p).cls = ProxyKind.commitsDataFrame
  ∧ (ReferencesDataFrame.commits p).cls = ProxyKind.commitsDataFrame
  ∧ (ReferencesDataFrame.blobs p).cls = ProxyKind.blobsDataFrame
  ∧ (CommitsDataFrame.all_reference_commits p).cls = ProxyKind.commitsDataFrame
  ∧ (CommitsDataFrame.tree_entries p).cls = ProxyKind.treeEntriesDataFrame
  ∧ (CommitsDataFrame.blobs p).cls = ProxyKind.blobsDataFrame
  ∧ (TreeEntriesDataFrame.blobs p).cls = ProxyKind.blobsDataFrame
  ∧ (BlobsDataFrame.classify_languages p).cls = ProxyKind.blobsWithLanguageDataFrame
  ∧ (BlobsDataFrame.extract_uasts p).cls = ProxyKind.uastsDataFrame
  ∧ (BlobsWithLanguageDataFrame.extract_uasts p).cls = ProxyKind.uastsDataFrame
  ∧ (UASTsDataFrame.query_uast p q qc oc).cls = ProxyKind.uastsDataFrame
  ∧ (UASTsDataFrame.extract_tokens p ic tc).cls = ProxyKind.uastsDataFrame :=
  ⟨rfl, rfl, rfl, rfl, rfl, rfl, rfl, rfl, rfl, rfl,
   rfl, rfl, rfl, rfl, rfl, rfl, rfl, rfl, rfl, rfl⟩

/-- C3: `Engine.blobs` checks the shape of `repository_ids`,
`reference_names` and `commit_hashes` in that order; the first argument that
is not a list raises an exception naming it, and no request is made to the
external engine (the recorded call list is empty). -/
theorem c3_blobs_argument_shape (self : EngineObj) (rids rnames chashes : PyArg) :
    (rids.isList = false →
       Engine.blobs self rids rnames chashes
         = (Except.error "repository_ids must be a list", []))
  ∧ (rids.isList = true → rnames.isList = false →
       Engine.blobs self rids rnames chashes
         = (Except.error "reference_names must be a list", []))
  ∧ (rids.isList = true → rnames.isList = true → chashes.isList = false →
       Engine.blobs self rids rnames chashes
         = (Except.error "commit_hashes must be a list", [])) := by
  refine ⟨?_, ?_, ?_⟩ <;>
    cases rids <;> cases rnames <;> cases chashes <;>
    simp [Engine.blobs, PyArg.isList]

/-- Witness for C3: a scalar string in each of the three positions is
rejected with a message naming that parameter, with no engine call. -/
theorem c3_witness :
    Engine.blobs ⟨0, 1, 2⟩ (PyArg.str "repo") (PyArg.list []) (PyArg.list [])
      = (Except.error "repository_ids must be a list", [])
  ∧ Engine.blobs ⟨0, 1, 2⟩ (PyArg.list []) (PyArg.str "ref") (PyArg.list [])
      = (Except.error "reference_names must be a list", [])
  ∧ Engine.blobs ⟨0, 1, 2⟩ (PyArg.list []) (PyArg.list []) (PyArg.str "hash")
      = (Except.error "commit_hashes must be a list", []) :=
  ⟨(c3_blobs_argument_shape ⟨0, 1, 2⟩ (PyArg.str "repo") (PyArg.list []) (PyArg.list [])).1 rfl,
   (c3_blobs_argument_shape ⟨0, 1, 2⟩ (PyArg.list []) (PyArg.str "ref") (PyArg.list [])).2.1 rfl rfl,
   (c3_blobs_argument_shape ⟨0, 1, 2⟩ (PyArg.list []) (PyArg.list []) (PyArg.str "hash")).2.2
     rfl rfl rfl⟩

/-- C4 counterexample: the repository-level `head_ref` navigation does not
perform exactly one derived-handle request — on a concrete repositories
proxy over a base handle it performs two (`getReferences()` then
`getHEAD()`). -/
theorem c4_counterexample :
    JDF.handleRequests
        (RepositoriesDataFrame.head_ref
          ⟨ProxyKind.repositoriesDataFrame, JDF.base 0, 0, 0⟩).jdf
      ≠ JDF.handleRequests (JDF.base 0) + 1 := by decide

/-- C4 amended: every navigation operation on the proxy subtypes performs
exactly one derived-handle request against the external engine and no local
computation, except the repository-level `head_ref` and `master_ref`
navigations, which chain two requests (`getReferences()` then `getHEAD()`);
the `ref(name)` convenience performs exactly one (the forwarded filter). -/
theorem c4_amended_engine_call_counts (p : Proxy) (r q qc oc ic tc : String) :
    (RepositoriesDataFrame.references p).jdf.handleRequests = p.jdf.handleRequests + 1
  ∧ (RepositoriesDataFrame.remote_references p).jdf.handleRequests = p.jdf.handleRequests + 1
  ∧ (RepositoriesDataFrame.head_ref p).jdf.handleRequests = p.jdf.handleRequests + 2
  ∧ (RepositoriesDataFrame.master_ref p).jdf.handleRequests = p.jdf.handleRequests + 2
  ∧ (ReferencesDataFrame.remote_references p).jdf.handleRequests = p.jdf.handleRequests + 1
  ∧ (ReferencesDataFrame.head_ref p).jdf.handleRequests = p.jdf.handleRequests + 1
  ∧ (ReferencesDataFrame.master_ref p).jdf.handleRequests = p.jdf.handleRequests + 1
  ∧ (ReferencesDataFrame.ref p r).jdf.handleRequests = p.jdf.handleRequests + 1
  ∧ (ReferencesDataFrame.all_reference_commits p).jdf.handleRequests = p.jdf.handleRequests + 1
  ∧ (ReferencesDataFrame.commits p).jdf.handleRequests = p.jdf.handleRequests + 1
  ∧ (ReferencesDataFrame.blobs p).jdf.handleRequests = p.jdf.handleRequests + 1
  ∧ (CommitsDataFrame.all_reference_commits p).jdf.handleRequests = p.jdf.handleRequests + 1
  ∧ (CommitsDataFrame.tree_entries p).jdf.handleRequests = p.jdf.handleRequests + 1
  ∧ (CommitsDataFrame.blobs p).jdf.handleRequests = p.jdf.handleRequests + 1
  ∧ (TreeEntriesDataFrame.blobs p).jdf.handleRequests = p.jdf.handleRequests + 1
  ∧ (BlobsDataFrame.classify_languages p).jdf.handleRequests = p.jdf.handleRequests + 1
  ∧ (BlobsDataFrame.extract_uasts p).jdf.handleRequests = p.jdf.handleRequests + 1
  ∧ (BlobsWithLanguageDataFrame.extract_uasts p).jdf.handleRequests = p.jdf.handleRequests + 1
  ∧ (UASTsDataFrame.query_uast p q qc oc).jdf.handleRequests = p.jdf.handleRequests + 1
  ∧ (UASTsDataFrame.extract_tokens p ic tc).jdf.handleRequests = p.jdf.handleRequests + 1 := by
  refine ⟨?_, ?_, ?_, ?_, ?_, ?_, ?_, ?_, ?_, ?_, ?_, ?_, ?_, ?_, ?_, ?_, ?_, ?_, ?_, ?_⟩ <;>
    simp [RepositoriesDataFrame.references, RepositoriesDataFrame.remote_references,
          RepositoriesDataFrame.head_ref, RepositoriesDataFrame.master_ref,
          ReferencesDataFrame.remote_references, ReferencesDataFrame.head_ref,
          ReferencesDataFrame.master_ref, ref_jdf,
          ReferencesDataFrame.all_reference_commits, ReferencesDataFrame.commits,
          ReferencesDataFrame.blobs, CommitsDataFrame.all_reference_commits,
          CommitsDataFrame.tree_entries, CommitsDataFrame.blobs,
          TreeEntriesDataFrame.blobs, BlobsDataFrame.classify_languages,
          BlobsDataFrame.extract_uasts, BlobsWithLanguageDataFrame.extract_uasts,
          UASTsDataFrame.query_uast, UASTsDataFrame.extract_tokens,
          Proxy.engine_dataframe, JDF.handleRequests]

/-- C5: the repository-level `master_ref` navigation produces exactly the
same proxy as the repository-level `head_ref` (both chain
`getReferences().getHEAD()` on the engine), while the reference-level
`master_ref` invokes the distinct `getMaster` operation and differs from the
reference-level `head_ref`. -/
theorem c5_master_ref_uses_getHEAD (p : Proxy) :
    RepositoriesDataFrame.master_ref p = RepositoriesDataFrame.head_ref p
  ∧ (RepositoriesDataFrame.master_ref p).jdf
      = JDF.engineOp EngineOp.getHEAD (JDF.engineOp EngineOp.getReferences p.jdf)
  ∧ (ReferencesDataFrame.master_ref p).jdf = JDF.engineOp EngineOp.getMaster p.jdf
  ∧ (ReferencesDataFrame.head_ref p).jdf = JDF.engineOp EngineOp.getHEAD p.jdf
  ∧ ReferencesDataFrame.master_ref p ≠ ReferencesDataFrame.head_ref p := by
  refine ⟨rfl, rfl, rfl, rfl, ?_⟩
  simp [ReferencesDataFrame.master_ref, ReferencesDataFrame.head_ref,
        Proxy.engine_dataframe, Proxy.mk.injEq]

/-- C6: filtering the references by the HEAD reference name with `ref` and
then navigating to commits denotes the same table as using the `head_ref`
shortcut and then navigating to commits, for every environment of base
tables and every source proxy (engine semantics modelled from the spec). -/
theorem c6_ref_head_commits_equiv (env : Nat → List Row) (p : Proxy) :
    evalJDF env (ReferencesDataFrame.commits (ReferencesDataFrame.ref p headRefName)).jdf
      = evalJDF env (ReferencesDataFrame.commits (ReferencesDataFrame.head_ref p)).jdf := by
  simp [ReferencesDataFrame.commits, ReferencesDataFrame.head_ref, ref_jdf,
        Proxy.engine_dataframe, evalJDF, engineOpSem, genericCallSem]

/-- C7: when the single bridge call of `Engine.__init__` fails with the
component-missing condition (a `TypeError` mentioning `JavaPackage`),
initialization raises an exception whose message directs the caller to
supply the missing package; any other `TypeError` and any other failure
propagate unchanged. -/
theorem c7_init_error_handling (session implicitsHandle : Nat) (m : String) :
    (strContains m "JavaPackage" = true →
       Engine.initFromBridge session implicitsHandle (BridgeInit.typeError m)
         = Except.error (PyError.exception pkgMissingMsg))
  ∧ strContains pkgMissingMsg "provide a jar with the package" = true
  ∧ strContains pkgMissingMsg "--packages" = true
  ∧ (strContains m "JavaPackage" = false →
       Engine.initFromBridge session implicitsHandle (BridgeInit.typeError m)
         = Except.error (PyError.typeError m))
  ∧ Engine.initFromBridge session implicitsHandle (BridgeInit.otherError m)
      = Except.error (PyError.otherError m)
  ∧ (∀ j, Engine.initFromBridge session implicitsHandle (BridgeInit.ok j)
      = Except.ok ⟨session, j, implicitsHandle⟩) := by
  refine ⟨fun h => ?_, by decide, by decide, fun h => ?_, rfl, fun j => rfl⟩
  · simp [Engine.initFromBridge, h]
  · simp [Engine.initFromBridge, h]

/-- Witness for C7: a `TypeError` mentioning `JavaPackage` becomes the
package-missing exception; one not mentioning it is re-raised unchanged. -/
theorem c7_witness :
    Engine.initFromBridge 0 1 (BridgeInit.typeError "class JavaPackage is not callable")
      = Except.error (PyError.exception pkgMissingMsg)
  ∧ Engine.initFromBridge 0 1 (BridgeInit.typeError "unrelated failure")
      = Except.error (PyError.typeError "unrelated failure") :=
  ⟨(c7_init_error_handling 0 1 "class JavaPackage is not callable").1 (by decide),
   (c7_init_error_handling 0 1 "unrelated failure").2.2.2.1 (by decide)⟩

/-- C8: every generic operation and every navigation operation hands the
caller's session reference and implicits handle to the derived proxy
unchanged. -/
theorem c8_context_preserved (func : JDF → PyValue) (p : Proxy) (r q qc oc ic tc : String) :
    MethodResult.contextPreserved (generateMethodWrapper func p) p
  ∧ preservesContext (RepositoriesDataFrame.references p) p
  ∧ preservesContext (RepositoriesDataFrame.remote_references p) p
  ∧ preservesContext (RepositoriesDataFrame.head_ref p) p
  ∧ preservesContext (RepositoriesDataFrame.master_ref p) p
  ∧ preservesContext (ReferencesDataFrame.remote_references p) p
  ∧ preservesContext (ReferencesDataFrame.head_ref p) p
  ∧ preservesContext (ReferencesDataFrame.master_ref p) p
  ∧ preservesContext (ReferencesDataFrame.ref p r) p
  ∧ preservesContext (ReferencesDataFrame.all_reference_commits p) p
  ∧ preservesContext (ReferencesDataFrame.commits p) p
  ∧ preservesContext (ReferencesDataFrame.blobs p) p
  ∧ preservesContext (CommitsDataFrame.all_reference_commits p) p
  ∧ preservesContext (CommitsDataFrame.tree_entries p) p
  ∧ preservesContext (CommitsDataFrame.blobs p) p
  ∧ preservesContext (TreeEntriesDataFrame.blobs p) p
  ∧ preservesContext (BlobsDataFrame.classify_languages p) p
  ∧ preservesContext (BlobsDataFrame.extract_uasts p) p
  ∧ preservesContext (BlobsWithLanguageDataFrame.extract_uasts p) p
  ∧ preservesContext (UASTsDataFrame.query_uast p q qc oc) p
  ∧ preservesContext (UASTsDataFrame.extract_tokens p ic tc) p := by
  refine ⟨?_, ⟨rfl, rfl⟩, ⟨rfl, rfl⟩, ⟨rfl, rfl⟩, ⟨rfl, rfl⟩, ⟨rfl, rfl⟩, ⟨rfl, rfl⟩,
          ⟨rfl, rfl⟩, ⟨rfl, rfl⟩, ⟨rfl, rfl⟩, ⟨rfl, rfl⟩, ⟨rfl, rfl⟩, ⟨rfl, rfl⟩,
          ⟨rfl, rfl⟩, ⟨rfl, rfl⟩, ⟨rfl, rfl⟩, ⟨rfl, rfl⟩, ⟨rfl, rfl⟩, ⟨rfl, rfl⟩,
          ⟨rfl, rfl⟩, ⟨rfl, rfl⟩⟩
  unfold generateMethodWrapper
  cases func p.jdf with
  | dataframe j =>
      by_cases h : p.cls = ProxyKind.sourcedDataFrame <;>
        simp [h, MethodResult.contextPreserved]
  | other v => simp [MethodResult.contextPreserved]

/-- C9: `classify_languages` followed by `extract_uasts` lands in the same
destination class as calling `extract_uasts` directly on a blobs proxy —
both normalize to the UASTs class. -/
theorem c9_uast_chain_subtype (p : Proxy) :
    (BlobsWithLanguageDataFrame.extract_uasts (BlobsDataFrame.classify_languages p)).cls
      = (BlobsDataFrame.extract_uasts p).cls
  ∧ (BlobsWithLanguageDataFrame.extract_uasts (BlobsDataFrame.classify_languages p)).cls
      = ProxyKind.uastsDataFrame
  ∧ (BlobsDataFrame.extract_uasts p).cls = ProxyKind.uastsDataFrame :=
  ⟨rfl, rfl, rfl⟩

/-- C10: `from_metadata` returns the very same `Engine` wrapper instance it
was called on, while `from_repositories` returns the value produced by the
bridge's `fromRepositories` call, never the wrapper instance. -/
theorem c10_source_switch_returns (e : EngineObj) (db_path db_name : String) :
    (Engine.from_metadata e db_path db_name).1 = PyReturn.engineInstance e
  ∧ (Engine.from_repositories e).1
      = PyReturn.bridgeObject (BridgeVal.fromRepositoriesResult e.jengine)
  ∧ ∀ e2 : EngineObj, (Engine.from_repositories e).1 ≠ PyReturn.engineInstance e2 :=
  ⟨rfl, rfl, fun _ h => PyReturn.noConfusion h⟩
